import Mathlib

/-!
Verification of the `bama_crawler` package of the persian-search-engine repository.

The Python modules are shallowly embedded as executable Lean definitions:

* `src/bama_crawler/db.py`        → `FrontierEntry`, `push_url`, `pop_batch`, `markSeen`
* `src/bama_crawler/utils.py`     → `RateLimiter`
* `src/bama_crawler/robots.py`    → `RobotsCache` model (`getParser`, `robotsAllowed`)
* `src/bama_crawler/fetcher.py`   → `parse_retry_after`, `fetchAttempt`, `fetch`
* `src/bama_crawler/parser.py`    → `is_html_content`, `same_reg_domain`
* `src/bama_crawler/frontier.py`  → `incPagesOk` (pages_ok lock), `maybe_adapt`,
                                    `fetchAndProcess` (the worker task)

Machine floats (timestamps, delays, latencies) are modelled as rationals; Python ints as
`Int`/`Nat`.  Stateful methods become pure state-passing functions; the locks in the source
serialize the corresponding operations, so a lock-protected critical section is modelled as
one atomic step of the state function.  External collaborators (the HTTP session, the
BeautifulSoup link extractor, the playwright renderer, `email.utils` date parsing) are
passed in as explicit environment functions.
-/

namespace BamaCrawler

/-! ## Frontier store (db.py)

The SQLite `frontier` table keyed by `url` (PRIMARY KEY) is modelled as a list of rows in
store (insertion) order; `INSERT OR IGNORE` appends a row only when the key is absent.
The `seen` table is a list of urls. -/

/-- One row of the `frontier` table: url (primary key), priority, depth, parent_url. -/
structure FrontierEntry where
  url : String
  priority : Int
  depth : Int
  parent_url : Option String
deriving DecidableEq, Repr

/-- The `frontier` table, in store order. -/
abbrev Frontier := List FrontierEntry

/-- `DB.push_url`: rejects empty or overlong urls, otherwise `INSERT OR IGNORE` keyed by
url; returns `(rowcount == 1, new table)`. -/
def push_url (fr : Frontier) (url : String) (priority depth : Int)
    (parent_url : Option String) : Bool × Frontier :=
  if url = "" ∨ url.length > 2048 then (false, fr)
  else if fr.any (fun e => e.url == url) then (false, fr)
  else (true, fr ++ [⟨url, priority, depth, parent_url⟩])

/-- Row order used by `SELECT ... ORDER BY priority ASC` (ties kept in store order, which
is what the stable insertion sort below produces). -/
def prioLE (a b : FrontierEntry) : Prop := a.priority ≤ b.priority

instance : DecidableRel prioLE := fun a b =>
  inferInstanceAs (Decidable (a.priority ≤ b.priority))

instance : IsTotal FrontierEntry prioLE :=
  ⟨fun a b => Int.le_total a.priority b.priority⟩

instance : IsTrans FrontierEntry prioLE :=
  ⟨fun _ _ _ hab hbc => le_trans hab hbc⟩

/-- `DB.pop_batch(n)`: select up to `n` rows ordered by ascending priority, then delete
exactly those rows (`DELETE FROM frontier WHERE url=?` for each selected url); the whole
method body runs under the store lock, hence one atomic step. -/
def pop_batch (fr : Frontier) (n : Nat) : List FrontierEntry × Frontier :=
  let rows := (List.insertionSort prioLE fr).take n
  let urls := rows.map (fun e => e.url)
  (rows, fr.filter (fun e => !(urls.contains e.url)))

/-- `DB.mark_seen`: `INSERT OR IGNORE INTO seen`. -/
def markSeen (seen : List String) (url : String) : List String :=
  if url ∈ seen then seen else seen ++ [url]

/-- `DB.is_seen`. -/
def is_seen (seen : List String) (url : String) : Bool := url ∈ seen

/-! ## The pages_ok ceiling (frontier.py, `Crawler._fetch_and_process` lines 591-598)

The counter update runs entirely inside `with self._ok_lock:`, so concurrent task
completions are serialized; each completion is one atomic application of `incPagesOk`. -/

/-- The two fields touched inside the `_ok_lock` critical section. -/
structure OkState where
  pages_ok : Nat
  stop_flag : Bool
deriving DecidableEq, Repr

/-- The guarded increment performed by a completing fetch-and-process task:
`if pages_ok < max_pages and not stop_flag: pages_ok += 1; counted = True;
if pages_ok >= max_pages: stop_flag = True`.  Returns the new state and `counted`. -/
def incPagesOk (max_pages : Nat) (s : OkState) : OkState × Bool :=
  if s.pages_ok < max_pages ∧ s.stop_flag = false then
    let p := s.pages_ok + 1
    ({ pages_ok := p, stop_flag := if max_pages ≤ p then true else s.stop_flag }, true)
  else (s, false)

/-- `n` task completions racing on the lock, in the order the lock serialized them;
returns the final state and how many of them counted. -/
def runCompletions (max_pages : Nat) (s : OkState) : Nat → OkState × Nat
  | 0 => (s, 0)
  | n + 1 =>
    let r := incPagesOk max_pages s
    let t := runCompletions max_pages r.1 n
    (t.1, (if r.2 then 1 else 0) + t.2)

/-! ## Rate limiter (utils.py, `RateLimiter`)

`wait` is called at wall-clock time `now`; the whole body, including the `time.sleep`,
runs under `self.lock`, so one call is one atomic step.  The call returns at
`now + sleep`.  `self.last` is a dict read through `.get(key, 0.0)`. -/

structure RateLimiter where
  min_delay : ℚ
  last : String → ℚ
deriving Inhabited

/-- `RateLimiter.__init__`: `min_delay = max(0.0, float(min_delay))`, empty dict. -/
def mkRateLimiter (d : ℚ) : RateLimiter := ⟨max 0 d, fun _ => 0⟩

/-- `RateLimiter.wait(key)` entered at time `now`: returns the time the call returns and
the new limiter state.  `delay = min_delay - (now - last)`; sleeps `delay` when positive;
records `last[key] = now + delay`. -/
def RateLimiter.wait (rl : RateLimiter) (key : String) (now : ℚ) : ℚ × RateLimiter :=
  if rl.min_delay ≤ 0 then (now, rl)
  else
    let last := rl.last key
    let delay := rl.min_delay - (now - last)
    let sleep := if 0 < delay then delay else 0
    (now + sleep, { rl with last := fun k => if k = key then now + delay else rl.last k })

/-! ## Robots cache (robots.py)

`RobotsCache._get_entry` builds a `urllib.robotparser.RobotFileParser`, calls `read()`,
and on an exception sets `rfp.disallow_all = False`.  The parser itself is a dependency
(CPython stdlib `urllib/robotparser.py`), modelled here by the fields its `read` and
`can_fetch` actually consult: `disallow_all`, `allow_all`, `last_checked` (0 until
`parse()` runs and calls `modified()`), and — abstracted — the decision the parsed rule
entries give for an (agent, url) pair, consulted only after the `last_checked` guard. -/

structure RobotFileParser where
  disallow_all : Bool
  allow_all : Bool
  last_checked : ℚ
  ruleAllows : String → String → Bool

/-- `RobotFileParser()` fresh state: flags false, `last_checked = 0`; with no parsed
entries `can_fetch` would fall through to "agent not found ==> access granted". -/
def newRobotFileParser : RobotFileParser := ⟨false, false, 0, fun _ _ => true⟩

/-- Outcome of `urllib.request.urlopen` + parse inside `RobotFileParser.read`. -/
inductive RobotsFetch where
  /-- The body was fetched and `parse` ran, calling `modified()` at time `t > 0`. -/
  | parsed (t : ℚ) (rules : String → String → Bool)
  /-- `urlopen` raised `HTTPError code`, which `read` handles itself. -/
  | httpError (code : Nat)
  /-- `urlopen` raised a non-HTTP error (timeout, DNS, connection…); it escapes `read`. -/
  | failed (msg : String)

/-- CPython `RobotFileParser.read`: 401/403 ⇒ `disallow_all`, other 4xx ⇒ `allow_all`,
other codes ⇒ nothing; a successful fetch parses (setting `last_checked`); a non-HTTP
error propagates to the caller. -/
def RobotFileParser.read (p : RobotFileParser) (outcome : RobotsFetch) :
    Except String RobotFileParser :=
  match outcome with
  | .parsed t rules => .ok { p with last_checked := t, ruleAllows := rules }
  | .httpError code =>
    if code = 401 ∨ code = 403 then .ok { p with disallow_all := true }
    else if 400 ≤ code ∧ code < 500 then .ok { p with allow_all := true }
    else .ok p
  | .failed _ => .error "read failed"

/-- CPython `RobotFileParser.can_fetch`. -/
def RobotFileParser.can_fetch (p : RobotFileParser) (agent url : String) : Bool :=
  if p.disallow_all then false
  else if p.allow_all then true
  else if p.last_checked = 0 then false
  else p.ruleAllows agent url

/-- `RobotsCache._get_entry` on a cache miss (or expired entry): build a fresh parser,
`rfp.read()`, and on an exception set `rfp.disallow_all = False` ("Allow access on
error"). -/
def getParser (outcome : RobotsFetch) : RobotFileParser :=
  let rfp := newRobotFileParser
  match rfp.read outcome with
  | .ok p => p
  | .error _ => { rfp with disallow_all := false }

/-- `RobotsCache.allowed` for a url whose host is not yet cached: `_get_entry` then
`can_fetch` (the surrounding `try` returns `True` only if `can_fetch` raises, which the
model's total `can_fetch` never does). -/
def robotsAllowed (outcome : RobotsFetch) (agent url : String) : Bool :=
  (getParser outcome).can_fetch agent url

/-! ## String helpers shared by fetcher.py and parser.py

Python strings are sequences of characters, so their operations are modelled on the
character list `String.data` (Lean's own byte-position string functions are avoided: the
kernel cannot evaluate their well-founded recursion, and the witnesses below must
evaluate). -/

/-- Whether `pat` is an initial segment of `hay`. -/
def charsStartWith : List Char → List Char → Bool
  | _, [] => true
  | [], _ :: _ => false
  | c :: cs, d :: ds => c == d && charsStartWith cs ds

/-- Whether `pat` occurs somewhere in `hay`. -/
def charsContain : List Char → List Char → Bool
  | [], pat => pat.isEmpty
  | hay@(_ :: cs), pat => charsStartWith hay pat || charsContain cs pat

/-- Python's `pat in hay` substring test. -/
def containsSub (hay pat : String) : Bool := charsContain hay.data pat.data

/-- Python `str.lower()`. -/
def pyLower (s : String) : String := ⟨s.data.map Char.toLower⟩

/-- Python `str.strip()`: drop whitespace from both ends. -/
def pyStrip (s : String) : String :=
  ⟨((s.data.dropWhile Char.isWhitespace).reverse.dropWhile Char.isWhitespace).reverse⟩

/-- Python `str.endswith(t)`. -/
def pyEndsWith (s t : String) : Bool := charsStartWith s.data.reverse t.data.reverse

/-- Python `str.isdigit` restricted to the ASCII digits the crawler meets: non-empty
and all digits. -/
def isDigitStr (s : String) : Bool := !s.data.isEmpty && s.data.all Char.isDigit

/-- Python `int(v)` on a string of ASCII digits. -/
def digitsToNat (s : String) : Nat :=
  s.data.foldl (fun n c => 10 * n + (c.toNat - 48)) 0

/-- The remainder of a url after the first `//`, if any. -/
def afterSlashSlash : List Char → Option (List Char)
  | [] => none
  | '/' :: '/' :: rest => some rest
  | _ :: rest => afterSlashSlash rest

/-- `urllib.parse.urlsplit(url).netloc` for the absolute http(s) urls the crawler
handles: the text between the first `//` and the next `/`, `?` or `#`. -/
def netloc (url : String) : String :=
  match afterSlashSlash url.data with
  | some rest => ⟨rest.takeWhile (fun c => c != '/' && c != '?' && c != '#')⟩
  | none => ""

/-! ## HTML classification and domain matching (parser.py) -/

/-- `is_html_content(headers)`: the Content-Type header value (the dict lookup of
`Content-Type`/`content-type` is collapsed to the single header value `ct`). -/
def is_html_content (ct : String) : Bool := containsSub (pyLower ct) "text/html"

/-- `same_reg_domain(url, allowed, follow_subdomains)` with the single allowed domain
the crawler passes: suffix match when following subdomains, else exact host match. -/
def same_reg_domain (url : String) (allowed_dom : String) (follow_subdomains : Bool) :
    Bool :=
  let host := pyLower (netloc url)
  if follow_subdomains then pyEndsWith host allowed_dom else host == allowed_dom

/-! ## Fetch engine (fetcher.py, `Fetcher`) -/

/-- `Fetcher._detect_captcha`: case-insensitive substring scan for challenge markers. -/
def detect_captcha (html : String) : Bool :=
  if html = "" then false
  else
    let lower := pyLower html
    ["captcha", "g-recaptcha", "hcaptcha", "cf-challenge", "cf-turnstile",
     "are you human", "bot verification", "attention required"].any
      (fun k => containsSub lower k)

/-- `Fetcher._looks_js_page`: SPA markers in the lowercased body, or a trimmed body
shorter than 1000 characters.  (The `window.__INITIAL_STATE__` needle keeps the source's
upper case even though it is matched against the lowercased body.) -/
def looks_js_page (html : String) : Bool :=
  let lower := pyLower html
  containsSub lower "<div id=\"app\"" ||
  containsSub lower "<div id=\x27app\x27" ||
  containsSub lower "id=\"__next\"" ||
  containsSub lower "window.__INITIAL_STATE__" ||
  (pyStrip html).length < 1000

/-- `Fetcher._parse_retry_after`: empty ⇒ 0; a digit string ⇒ its value (`int` may still
fail, giving 0); otherwise an HTTP-date parsed by `email.utils.parsedate_to_datetime`
(supplied as the environment `dateParse`, a timestamp in seconds) with the remaining
`int((dt - now).total_seconds())`, clamped by `max(0, ·)`; unparseable ⇒ 0.  Python's
`int` truncates toward zero, which under the `max 0` clamp agrees with `Int.floor`. -/
def parse_retry_after (dateParse : String → Option ℚ) (now : ℚ) (value : String) : Int :=
  if value = "" then 0
  else
    let v := pyStrip value
    if isDigitStr v then max 0 (digitsToNat v : Int)
    else
      match dateParse v with
      | some dt => max 0 (Int.floor (dt - now))
      | none => 0

/-- The response of one `self.session.get(url, ...)` call: status, the two header values
the code reads, and `resp.text`. -/
structure HttpResponse where
  status : Nat
  content_type : String
  retry_after : String
  body : String
deriving DecidableEq, Repr

/-- What one attempt's `session.get` does: raise a requests-level exception, or return a
response. -/
inductive AttemptOutcome where
  | exn (msg : String)
  | resp (r : HttpResponse)
deriving DecidableEq, Repr

/-- Environment of a `fetch` call: configuration plus the external collaborators
(network, renderer, date parsing, the clock read during Retry-After parsing). -/
structure FetchEnv where
  retries : Nat
  enable_render : Bool
  render : String → Option String
  dateParse : String → Option ℚ
  now : ℚ
  attempt : Nat → AttemptOutcome

/-- The tuple `fetch` returns (minus `elapsed`, which is wall-clock instrumentation):
status, the Content-Type header (`""` for the empty header dict of the exhausted case),
the final content, and the error field. -/
structure FetchResult where
  status : Option Nat
  content_type : String
  content : String
  error : Option String
deriving DecidableEq, Repr

/-- The `time.sleep` calls a fetch performs, in order. -/
inductive SleepEvent where
  /-- `time.sleep(min(wait, 120))` after parsing Retry-After on a 429/503. -/
  | retryAfter (secs : Int)
  /-- `time.sleep(1.0 * attempt)` linear backoff in the `except` handler. -/
  | backoff (attempt : Nat)
deriving DecidableEq, Repr

/-- Result of one iteration of the retry loop. -/
inductive AttemptStep where
  | done (r : FetchResult) (sleeps : List SleepEvent)
  | failedTry (last_err : String) (sleeps : List SleepEvent)
deriving Repr

/-- One iteration of the `for attempt in range(1, retries + 2)` body (the per-host
`RateLimiter.wait` consumes a slot but carries no data and is elided):
* a raised exception sets `last_err` and backs off `1.0 * attempt`;
* a 429/503 parses Retry-After, sleeps `min(wait, 120)` if positive, and raises
  `RequestException(f"retryable status {status}")`, caught by the same handler;
* otherwise, optional playwright rendering (on success replacing the content and
  normalizing the status to 200), then the CAPTCHA scan on html responses. -/
def fetchAttempt (env : FetchEnv) (url : String) (k : Nat) : AttemptStep :=
  match env.attempt k with
  | .exn msg => .failedTry msg [.backoff k]
  | .resp r =>
    if r.status = 429 ∨ r.status = 503 then
      let w := parse_retry_after env.dateParse env.now r.retry_after
      let s := if 0 < w then [SleepEvent.retryAfter (min w 120)] else []
      .failedTry ("retryable status " ++ toString r.status) (s ++ [.backoff k])
    else
      let ct := r.content_type
      let rendered :=
        if env.enable_render && containsSub ct "text/html" && looks_js_page r.body then
          match env.render url with
          | some html => (html, 200)
          | none => (r.body, r.status)
        else (r.body, r.status)
      let content := rendered.1
      let status := rendered.2
      if containsSub ct "text/html" && detect_captcha content then
        .done ⟨some status, ct, content, some "CAPTCHA_DETECTED"⟩ []
      else
        .done ⟨some status, ct, content, none⟩ []

/-- The retry loop: `k` is the 1-based attempt number, `remaining` the attempts left.
Returns the fetch result, the number of attempts performed, and the sleeps. -/
def fetchLoop (env : FetchEnv) (url : String) :
    Nat → Nat → Option String → List SleepEvent → FetchResult × Nat × List SleepEvent
  | k, 0, last_err, acc => (⟨none, "", "", last_err⟩, k - 1, acc)
  | k, remaining + 1, _last_err, acc =>
    match fetchAttempt env url k with
    | .done res s => (res, k, acc ++ s)
    | .failedTry msg s => fetchLoop env url (k + 1) remaining (some msg) (acc ++ s)

/-- `Fetcher.fetch(url)`: up to `retries + 1` attempts; after exhausting all of them
returns `status=None, headers={}, content=b"", error=last_err`. -/
def fetch (env : FetchEnv) (url : String) : FetchResult × Nat × List SleepEvent :=
  fetchLoop env url 1 (env.retries + 1) none []

/-! ## Crawl orchestrator worker task (frontier.py, `Crawler._fetch_and_process`)

The crawler state below carries the fields the task reads or writes.  The quarantine
dict is an association list; `markSeen` gives the durable seen set; the adaptive windows
receive the latency/error sample of every fetch.  The BeautifulSoup link extraction is
the external `extract` collaborator. -/

/-- `CrawlRecord` (storage.py): one audit row per processed url. -/
structure CrawlRecord where
  url : String
  parent_url : Option String
  depth : Int
  status : Option Nat
  content_type : String
  size_bytes : Option Nat
  fetch_sec : ℚ
  error : Option String
deriving DecidableEq, Repr

/-- The configuration fields `_fetch_and_process` consults. -/
structure CrawlCfg where
  allowed_domain : String
  follow_subdomains : Bool
  store_html : Bool
  max_pages : Nat
  captcha_quarantine_sec : ℚ
deriving Repr

/-- Crawler state touched by a fetch-and-process task. -/
structure CrawlState where
  frontier : Frontier
  seen : List String
  quarantine : List (String × ℚ)
  pages_ok : Nat
  stop_flag : Bool
  error_count : Nat
  non_html_count : Nat
  dup_insert_ignored : Nat
  unique_internal : List String
  unique_external : List String
  total_bytes_saved : Nat
  records : List CrawlRecord
  edges : List (String × String)
  lat_window : List ℚ
  err_window : List ℚ
deriving DecidableEq, Repr

/-- Python dict assignment `m[k] = v` on an association list. -/
def dictSet (m : List (String × ℚ)) (k : String) (v : ℚ) : List (String × ℚ) :=
  (m.filter (fun e => !(e.1 == k))) ++ [(k, v)]

/-- Python `m.get(k)` on an association list. -/
def dictGet (m : List (String × ℚ)) (k : String) : Option ℚ :=
  (m.find? (fun e => e.1 == k)).map (fun e => e.2)

/-- Python truthiness of `status and 200 <= status < 300` for an optional status. -/
def is2xx (status : Option Nat) : Bool :=
  match status with
  | some s => 200 ≤ s && s < 300
  | none => false

/-- The body of the `for discovered_url in links` loop: unique internal/external
tracking, `save_edge`, and `push_url(du, depth+1, depth+1, url)` for internal links with
`dup_insert_ignored` on a duplicate. -/
def processLink (cfg : CrawlCfg) (url : String) (depth : Int) (st : CrawlState)
    (du : String) : CrawlState :=
  let is_internal := same_reg_domain du cfg.allowed_domain cfg.follow_subdomains
  let st :=
    if is_internal then
      if du ∈ st.unique_internal then st
      else { st with unique_internal := st.unique_internal ++ [du] }
    else
      if du ∈ st.unique_external then st
      else { st with unique_external := st.unique_external ++ [du] }
  let st := { st with edges := st.edges ++ [(url, du)] }
  if is_internal then
    let pr := push_url st.frontier du (depth + 1) (depth + 1) (some url)
    if pr.1 then { st with frontier := pr.2 }
    else { st with frontier := pr.2, dup_insert_ignored := st.dup_insert_ignored + 1 }
  else st

/-- `Crawler._fetch_and_process(url, depth, parent)` applied to the outcome
`(status, headers, content, elapsed, err)` of `self.fetcher.fetch(url)` read at
wall-clock time `now`.  The per-host semaphore bounds concurrency but does not change
state.  Branches, as in the source: early exit under `_ok_lock`; metric windows;
CAPTCHA (quarantine host, re-push at priority `depth`, record, `error_count`, **no**
seen mark); other errors (record, `error_count`, seen); successful 2xx html (store,
link loop, guarded `pages_ok` increment setting `stop_flag` at the ceiling, record,
seen); anything else (record, `non_html_count` only when 2xx, seen). -/
def fetchAndProcess (cfg : CrawlCfg) (extract : String → String → List String) (now : ℚ)
    (st : CrawlState) (url : String) (depth : Int) (parent : Option String)
    (res : FetchResult) (elapsed : ℚ) : CrawlState :=
  if cfg.max_pages ≤ st.pages_ok ∨ st.stop_flag = true then st
  else
    let host := netloc url
    let ct := res.content_type
    let size : Option Nat := if res.content = "" then none else some res.content.length
    let st := { st with lat_window := st.lat_window ++ [elapsed],
                        err_window := st.err_window ++ [if res.error.isSome then 1 else 0] }
    if res.error = some "CAPTCHA_DETECTED" then
      let st := { st with
        quarantine := dictSet st.quarantine host (now + cfg.captcha_quarantine_sec) }
      let st := { st with frontier := (push_url st.frontier url depth depth parent).2 }
      let st := { st with
        records := st.records ++ [(⟨url, parent, depth, res.status, ct, size, elapsed, res.error⟩ : CrawlRecord)] }
      { st with error_count := st.error_count + 1 }
    else if res.error.isSome then
      let st := { st with
        records := st.records ++ [(⟨url, parent, depth, res.status, ct, size, elapsed, res.error⟩ : CrawlRecord)] }
      let st := { st with error_count := st.error_count + 1 }
      { st with seen := markSeen st.seen url }
    else
      let ok_html := is2xx res.status && is_html_content ct && !(res.content == "")
      if ok_html then
        let st :=
          if cfg.store_html then
            { st with total_bytes_saved :=
                st.total_bytes_saved + min res.content.length 10485760 }
          else st
        let st := (extract url res.content).foldl (processLink cfg url depth) st
        let st :=
          if st.pages_ok < cfg.max_pages ∧ st.stop_flag = false then
            { st with pages_ok := st.pages_ok + 1,
                      stop_flag := if cfg.max_pages ≤ st.pages_ok + 1 then true
                                   else st.stop_flag }
          else st
        let st := { st with
          records := st.records ++ [(⟨url, parent, depth, res.status, ct, size, elapsed, none⟩ : CrawlRecord)] }
        { st with seen := markSeen st.seen url }
      else
        let st :=
          if is2xx res.status then { st with non_html_count := st.non_html_count + 1 }
          else st
        let st := { st with
          records := st.records ++ [(⟨url, parent, depth, res.status, ct, size, elapsed, none⟩ : CrawlRecord)] }
        { st with seen := markSeen st.seen url }

/-! ## Adaptive concurrency controller (frontier.py, `Crawler._maybe_adapt`) -/

/-- The adaptive tuning fields of the crawler. -/
structure AdaptState where
  inflight_limit : Int
  ad_min : Int
  ad_max : Int
  ad_step : Int
  ad_low : ℚ
  ad_high : ℚ
  ad_err_high : ℚ
deriving Repr

/-- `Crawler._maybe_adapt`: no-op below 10 latency samples; otherwise two sequential
guarded updates of `inflight_limit` (the second one sees the first one's result), the
increase capped by `ad_max`, the decrease floored by `ad_min`.  `q` is the current
frontier size. -/
def maybe_adapt (st : AdaptState) (lat err : List ℚ) (q : Int) : Int :=
  if lat.length < 10 then st.inflight_limit
  else
    let avg_lat := lat.sum / (lat.length : ℚ)
    let err_rate := if err.isEmpty then 0 else err.sum / (err.length : ℚ)
    let l1 :=
      if avg_lat < st.ad_low ∧ err_rate < st.ad_err_high / 2 ∧ q > st.inflight_limit
      then min st.ad_max (st.inflight_limit + st.ad_step)
      else st.inflight_limit
    if avg_lat > st.ad_high ∨ err_rate > st.ad_err_high
    then max st.ad_min (l1 - st.ad_step)
    else l1

/-! ## Concrete fixtures used by the witnesses below -/

/-- A network that raises on every attempt. -/
def fetchEnvAllFail : FetchEnv :=
  { retries := 2, enable_render := false, render := fun _ => none,
    dateParse := fun _ => none, now := 0, attempt := fun k => .exn ("boom " ++ toString k) }

/-- A date parser that resolves the single date string "x" to timestamp 60. -/
def dateParse60 : String → Option ℚ := fun s => if s = "x" then some 60 else none

/-- A 503 response carrying `Retry-After: 30`. -/
def resp503 : HttpResponse := ⟨503, "", "30", ""⟩

/-- A network that answers every attempt with `resp503`. -/
def fetchEnv503 : FetchEnv :=
  { retries := 3, enable_render := false, render := fun _ => none,
    dateParse := fun _ => none, now := 0, attempt := fun _ => .resp resp503 }

/-- A small crawl configuration. -/
def cfgW : CrawlCfg := ⟨"example.com", true, true, 10, 900⟩

/-- The crawler state at the start of a fresh crawl. -/
def stEmpty : CrawlState := ⟨[], [], [], 0, false, 0, 0, 0, [], [], 0, [], [], [], []⟩

/-- The fetch outcome of a challenge page. -/
def resCaptcha : FetchResult :=
  ⟨some 200, "text/html", "g-recaptcha challenge", some "CAPTCHA_DETECTED"⟩

/-! # Theorems -/

/-! ## Frontier store -/

theorem pop_batch_fst_length (fr : Frontier) (n : Nat) :
    (pop_batch fr n).1.length ≤ n := by
  simp [pop_batch]

theorem pop_batch_fst_sorted (fr : Frontier) (n : Nat) :
    (pop_batch fr n).1.Pairwise prioLE :=
  List.Pairwise.sublist (List.take_sublist n _) (List.sorted_insertionSort prioLE fr)

theorem pop_batch_fst_mem (fr : Frontier) (n : Nat) :
    ∀ e ∈ (pop_batch fr n).1, e ∈ fr := fun e he =>
  (List.mem_insertionSort prioLE).1 ((List.take_sublist n _).mem he)

theorem pop_batch_snd_mem (fr : Frontier) (n : Nat) (e : FrontierEntry) :
    e ∈ (pop_batch fr n).2 ↔ e ∈ fr ∧ ∀ r ∈ (pop_batch fr n).1, e.url ≠ r.url := by
  simp only [pop_batch, List.mem_filter, Bool.not_eq_eq_eq_not, Bool.not_true,
    ← Bool.not_eq_true, List.elem_iff, List.mem_map]
  constructor
  · rintro ⟨h1, h2⟩
    exact ⟨h1, fun r hr hq => h2 ⟨r, hr, hq.symm⟩⟩
  · rintro ⟨h1, h2⟩
    exact ⟨h1, fun hc => by obtain ⟨r, hr, hq⟩ := hc; exact h2 r hr hq.symm⟩

/-- Claim C3: `pop_batch n` returns at most `n` entries, in ascending priority order,
every one of them taken from the store; the store afterwards contains exactly the
entries not returned; and no entry returned by this call is returned by a subsequent
`pop_batch` (on the resulting store, with no re-push in between). -/
theorem C3_pop_batch_removes_what_it_returns (fr : Frontier) (n m : Nat) :
    (pop_batch fr n).1.length ≤ n ∧
    (pop_batch fr n).1.Pairwise prioLE ∧
    (∀ e ∈ (pop_batch fr n).1, e ∈ fr) ∧
    (∀ e, e ∈ (pop_batch fr n).2 ↔ e ∈ fr ∧ ∀ r ∈ (pop_batch fr n).1, e.url ≠ r.url) ∧
    (∀ e ∈ (pop_batch fr n).1,
      ∀ e₂ ∈ (pop_batch (pop_batch fr n).2 m).1, e₂.url ≠ e.url) := by
  refine ⟨pop_batch_fst_length fr n, pop_batch_fst_sorted fr n, pop_batch_fst_mem fr n,
    pop_batch_snd_mem fr n, fun e he e₂ he₂ => ?_⟩
  have h1 : e₂ ∈ (pop_batch fr n).2 := pop_batch_fst_mem _ m e₂ he₂
  exact ((pop_batch_snd_mem fr n e₂).1 h1).2 e he

/-- Claim C2: a fresh, non-empty, ≤2048-character url is inserted exactly once and the
first push returns true; any second push of the same url returns false and changes
nothing; pushing an empty or overlong url is a rejected no-op; and a push never creates
a second entry for a url already present (key uniqueness is preserved). -/
theorem C2_push_url_insert_if_absent (fr : Frontier) (u v : String)
    (p₁ d₁ p₂ d₂ pv dv : Int) (a₁ a₂ av : Option String)
    (hu : ¬(u = "" ∨ u.length > 2048))
    (hfresh : ∀ e ∈ fr, e.url ≠ u)
    (hv : v = "" ∨ v.length > 2048) :
    push_url fr u p₁ d₁ a₁ = (true, fr ++ [⟨u, p₁, d₁, a₁⟩]) ∧
    (push_url fr u p₁ d₁ a₁).2.countP (fun e => e.url == u) = 1 ∧
    push_url (push_url fr u p₁ d₁ a₁).2 u p₂ d₂ a₂ = (false, (push_url fr u p₁ d₁ a₁).2) ∧
    push_url fr v pv dv av = (false, fr) ∧
    (∀ (g : Frontier) (w : String) (pw dw : Int) (aw : Option String),
      (g.map FrontierEntry.url).Nodup →
        ((push_url g w pw dw aw).2.map FrontierEntry.url).Nodup) := by
  have hany : fr.any (fun e => e.url == u) = false := by
    simp only [List.any_eq_false, beq_iff_eq]
    exact hfresh
  have h1 : push_url fr u p₁ d₁ a₁ = (true, fr ++ [⟨u, p₁, d₁, a₁⟩]) := by
    simp [push_url, hu, hany]
  refine ⟨h1, ?_, ?_, ?_, ?_⟩
  · rw [h1]
    have h0 : fr.countP (fun e => e.url == u) = 0 := by
      simp only [List.countP_eq_zero, beq_iff_eq]
      exact hfresh
    simp [List.countP_append, h0]
  · rw [h1]
    have : (fr ++ [(⟨u, p₁, d₁, a₁⟩ : FrontierEntry)]).any (fun e => e.url == u) = true := by
      simp
    simp [push_url, hu, this]
  · simp [push_url, hv]
  · intro g w pw dw aw hnd
    by_cases hw : w = "" ∨ w.length > 2048
    · simpa [push_url, hw] using hnd
    · by_cases hdup : g.any (fun e => e.url == w) = true
      · simpa [push_url, hw, hdup] using hnd
      · have hnotin : w ∉ g.map FrontierEntry.url := by
          simp only [List.any_eq_true, beq_iff_eq, not_exists] at hdup
          simp only [List.mem_map, not_exists]
          rintro e ⟨he, hq⟩
          exact hdup e ⟨he, hq⟩
        simp [push_url, hw, hdup, List.nodup_append, hnd, hnotin]

/-- Witness for C2 at a concrete input. -/
theorem C2_push_url_insert_if_absent_witness :
    (¬(("a" : String) = "" ∨ ("a" : String).length > 2048)) ∧
    (∀ e ∈ ([] : Frontier), e.url ≠ "a") ∧
    ((("" : String) = "" ∨ ("" : String).length > 2048)) ∧
    (push_url [] "a" 0 0 none = (true, [⟨"a", 0, 0, none⟩]) ∧
     (push_url [] "a" 0 0 none).2.countP (fun e => e.url == "a") = 1 ∧
     push_url (push_url [] "a" 0 0 none).2 "a" 1 1 (some "b") =
       (false, (push_url [] "a" 0 0 none).2) ∧
     push_url [] "" 2 2 none = (false, []) ∧
    (∀ (g : Frontier) (w : String) (pw dw : Int) (aw : Option String),
      (g.map FrontierEntry.url).Nodup →
        ((push_url g w pw dw aw).2.map FrontierEntry.url).Nodup)) :=
  ⟨by decide, by simp, by decide,
   C2_push_url_insert_if_absent [] "a" "" 0 0 1 1 2 2 none (some "b") none
     (by decide) (by simp) (by decide)⟩

/-! ## The pages_ok ceiling -/

theorem runCompletions_stuck (M : Nat) (s : OkState)
    (h : ¬(s.pages_ok < M ∧ s.stop_flag = false)) :
    ∀ k, runCompletions M s k = (s, 0) := by
  intro k
  induction k with
  | zero => rfl
  | succ j ih => simp [runCompletions, incPagesOk, h, ih]

/-- Claim C1: the guarded, lock-serialized increment never lets `pages_ok` exceed
`max_pages`; from `pages_ok = max_pages - 1` with the stop flag clear, any positive
number of serialized task completions yields exactly one counted increment, a final
count of exactly `max_pages`, and the stop flag set by the counting task. -/
theorem C1_pages_ok_never_exceeds_max (M n : Nat) (s : OkState)
    (hM : 1 ≤ M) (hn : 1 ≤ n) (hs : s.pages_ok ≤ M) :
    (runCompletions M ⟨M - 1, false⟩ n).1 = ⟨M, true⟩ ∧
    (runCompletions M ⟨M - 1, false⟩ n).2 = 1 ∧
    (incPagesOk M s).1.pages_ok ≤ M := by
  obtain ⟨j, rfl⟩ : ∃ j, n = j + 1 := ⟨n - 1, by omega⟩
  have hstep : incPagesOk M ⟨M - 1, false⟩ = (⟨M, true⟩, true) := by
    have h1 : M - 1 < M := by omega
    have h2 : M - 1 + 1 = M := by omega
    simp [incPagesOk, h1, h2]
  have hrest := runCompletions_stuck M ⟨M, true⟩ (by simp) j
  refine ⟨?_, ?_, ?_⟩
  · simp [runCompletions, hstep, hrest]
  · simp [runCompletions, hstep, hrest]
  · unfold incPagesOk
    split_ifs with h
    · simpa using h.1
    · exact hs

/-! ## Robots cache fails closed, not open (C4)

robots.py catches the exception a failed `rfp.read()` raises and sets
`rfp.disallow_all = False` ("Allow access on error"), but `disallow_all` was already
`False` and `last_checked` is still 0, so the stdlib `can_fetch` returns `False`:
the host is blocked, not allowed. -/

/-- Claim C4 is false on the code: with the robots.txt fetch failing on a network
error, `RobotsCache.allowed` returns `false` (host fully blocked), not `true`. -/
theorem C4_robots_fetch_failure_blocks :
    robotsAllowed (.failed "connection refused") "bama-crawler" "https://example.com/p"
      = false := by
  decide

/-! ## Rate limiter lag (C5)

`wait` records `last[key] = now + delay` even when `delay` is negative, i.e. it records
`previous + min_delay`, which can lie strictly in the past.  Starting from the initial
state (`last.get(key, 0.0) = 0`), a call at time 10 with `min_delay = 1` records a
reservation of 1 — neither the time the wait began (10) nor a future slot — and a second
call at time 10.5 then proceeds without any sleep, only 0.5 s after the first returned. -/

/-- Claim C5 is false on the code: concrete two-call run of `RateLimiter.wait` with
`min_delay = 1` in which the recorded reservation is not the time the wait began and the
second call returns less than `min_delay` after the first returned, without blocking. -/
theorem C5_rate_limiter_underwaits :
    ((mkRateLimiter 1).wait "h" 10).1 = 10 ∧
    ((mkRateLimiter 1).wait "h" 10).2.last "h" = 1 ∧
    (((mkRateLimiter 1).wait "h" 10).2.wait "h" (21 / 2)).1 = 21 / 2 ∧
    (((mkRateLimiter 1).wait "h" 10).2.wait "h" (21 / 2)).1
        - ((mkRateLimiter 1).wait "h" 10).1
      < (mkRateLimiter 1).min_delay := by
  refine ⟨?_, ?_, ?_, ?_⟩ <;> norm_num [mkRateLimiter, RateLimiter.wait]

/-! ## Adaptive concurrency bounds (C9) -/

/-- Claim C9: with a sane tuning configuration (`ad_min ≤ ad_max`, non-negative step)
and `inflight_limit` within `[ad_min, ad_max]`, a single `_maybe_adapt` step keeps it
within `[ad_min, ad_max]`; and with fewer than 10 latency samples the step changes
nothing. -/
theorem C9_inflight_limit_stays_bounded (st : AdaptState) (lat err : List ℚ) (q : Int)
    (hmm : st.ad_min ≤ st.ad_max) (hstep : 0 ≤ st.ad_step)
    (hlo : st.ad_min ≤ st.inflight_limit) (hhi : st.inflight_limit ≤ st.ad_max) :
    (st.ad_min ≤ maybe_adapt st lat err q ∧ maybe_adapt st lat err q ≤ st.ad_max) ∧
    (lat.length < 10 → maybe_adapt st lat err q = st.inflight_limit) := by
  constructor
  · by_cases h0 : lat.length < 10
    · simp only [maybe_adapt, if_pos h0]
      exact ⟨hlo, hhi⟩
    · simp only [maybe_adapt, if_neg h0]
      split_ifs <;> constructor <;> omega
  · intro hsmall
    simp [maybe_adapt, hsmall]

/-- Witness for C9 at a concrete input. -/
theorem C9_inflight_limit_stays_bounded_witness :
    ((4 : Int) ≤ 32) ∧ ((0 : Int) ≤ 2) ∧ ((4 : Int) ≤ 8) ∧ ((8 : Int) ≤ 32) ∧
    (((4 : Int) ≤ maybe_adapt ⟨8, 4, 32, 2, 1/2, 2, 3/20⟩ [] [] 0 ∧
      maybe_adapt ⟨8, 4, 32, 2, 1/2, 2, 3/20⟩ [] [] 0 ≤ 32) ∧
     (([] : List ℚ).length < 10 → maybe_adapt ⟨8, 4, 32, 2, 1/2, 2, 3/20⟩ [] [] 0 = 8)) :=
  ⟨by decide, by decide, by decide, by decide,
   C9_inflight_limit_stays_bounded ⟨8, 4, 32, 2, 1/2, 2, 3/20⟩ [] [] 0
     (by decide) (by decide) (by decide) (by decide)⟩

/-! ## Fetch engine -/

theorem fetchLoop_all_exn (env : FetchEnv) (url : String) (msgf : Nat → String)
    (h : ∀ k, env.attempt k = .exn (msgf k)) :
    ∀ (r k : Nat) (last : Option String) (acc : List SleepEvent), 1 ≤ r →
      (fetchLoop env url k r last acc).1 = ⟨none, "", "", some (msgf (k + r - 1))⟩ ∧
      (fetchLoop env url k r last acc).2.1 = k + r - 1 := by
  intro r
  induction r with
  | zero => intro k last acc h1; omega
  | succ j ih =>
    intro k last acc _
    by_cases hj : 1 ≤ j
    · have hrec := ih (k + 1) (some (msgf k)) (acc ++ [.backoff k]) hj
      have hk1 : k + 1 + j - 1 = k + (j + 1) - 1 := by omega
      rw [hk1] at hrec
      simpa [fetchLoop, fetchAttempt, h k] using hrec
    · have hj0 : j = 0 := by omega
      subst hj0
      simp [fetchLoop, fetchAttempt, h k]

/-- Claim C8: when every attempt raises a network-level exception, `fetch` performs
exactly `retries + 1` attempts and returns a null status, empty headers, empty content,
and the message of the last failure. -/
theorem C8_fetch_returns_last_error_after_all_attempts (env : FetchEnv) (url : String)
    (msgf : Nat → String) (h : ∀ k, env.attempt k = .exn (msgf k)) :
    (fetch env url).1 = ⟨none, "", "", some (msgf (env.retries + 1))⟩ ∧
    (fetch env url).2.1 = env.retries + 1 := by
  obtain ⟨h1, h2⟩ :=
    fetchLoop_all_exn env url msgf h (env.retries + 1) 1 none [] (by omega)
  have he : 1 + (env.retries + 1) - 1 = env.retries + 1 := by omega
  rw [he] at h1 h2
  exact ⟨h1, h2⟩

/-- Witness for C8 at a concrete input. -/
theorem C8_fetch_returns_last_error_after_all_attempts_witness :
    (∀ k, fetchEnvAllFail.attempt k = .exn ("boom " ++ toString k)) ∧
    ((fetch fetchEnvAllFail "https://e.com/").1
        = ⟨none, "", "", some ("boom " ++ toString (fetchEnvAllFail.retries + 1))⟩ ∧
     (fetch fetchEnvAllFail "https://e.com/").2.1 = fetchEnvAllFail.retries + 1) :=
  ⟨fun _ => rfl,
   C8_fetch_returns_last_error_after_all_attempts fetchEnvAllFail "https://e.com/"
     (fun k => "boom " ++ toString k) (fun _ => rfl)⟩

/-- Claim C7: `_parse_retry_after` maps the digit string "120" to 120, an HTTP-date
between 59 and 61 seconds in the future to a value within one second of 60 (exactly 60
when the date is exactly 60 s ahead), and malformed or missing input to 0; and on a
429/503 response whose parsed wait is positive, the attempt sleeps
`min(parsed_wait, 120)` and becomes a retryable failure. -/
theorem C7_retry_after_parsing_and_backoff (dp : String → Option ℚ) (now : ℚ)
    (v w : String) (d : ℚ) (env : FetchEnv) (url : String) (k : Nat) (r : HttpResponse)
    (hv1 : v ≠ "") (hv2 : isDigitStr (pyStrip v) = false) (hvd : dp (pyStrip v) = some d)
    (h59 : 59 ≤ d - now) (h61 : d - now < 61)
    (hw1 : w ≠ "") (hw2 : isDigitStr (pyStrip w) = false) (hwd : dp (pyStrip w) = none)
    (hresp : env.attempt k = .resp r) (hst : r.status = 429 ∨ r.status = 503)
    (hwait : 0 < parse_retry_after env.dateParse env.now r.retry_after) :
    parse_retry_after dp now "120" = 120 ∧
    |parse_retry_after dp now v - 60| ≤ 1 ∧
    parse_retry_after dp now w = 0 ∧
    parse_retry_after dp now "" = 0 ∧
    fetchAttempt env url k =
      .failedTry ("retryable status " ++ toString r.status)
        [.retryAfter (min (parse_retry_after env.dateParse env.now r.retry_after) 120),
         .backoff k] := by
  refine ⟨rfl, ?_, ?_, rfl, ?_⟩
  · have hval : parse_retry_after dp now v = max 0 (Int.floor (d - now)) := by
      simp [parse_retry_after, hv1, hv2, hvd]
    have hf1 : (59 : Int) ≤ Int.floor (d - now) := by
      refine Int.le_floor.mpr ?_
      exact_mod_cast h59
    have hf2 : Int.floor (d - now) < 61 := by
      refine Int.floor_lt.mpr ?_
      exact_mod_cast h61
    rw [hval, abs_le]
    omega
  · simp [parse_retry_after, hw1, hw2, hwd]
  · simp only [fetchAttempt, hresp]
    rw [if_pos hst, if_pos hwait]
    rfl

/-- Witness for C7 at a concrete input. -/
theorem C7_retry_after_parsing_and_backoff_witness :
    (("x" : String) ≠ "") ∧ (isDigitStr (pyStrip "x") = false) ∧
    (dateParse60 (pyStrip "x") = some 60) ∧
    ((59 : ℚ) ≤ 60 - 0) ∧ ((60 : ℚ) - 0 < 61) ∧
    (("y" : String) ≠ "") ∧ (isDigitStr (pyStrip "y") = false) ∧
    (dateParse60 (pyStrip "y") = none) ∧
    (fetchEnv503.attempt 1 = .resp resp503) ∧
    (resp503.status = 429 ∨ resp503.status = 503) ∧
    (0 < parse_retry_after fetchEnv503.dateParse fetchEnv503.now resp503.retry_after) ∧
    (parse_retry_after dateParse60 0 "120" = 120 ∧
     |parse_retry_after dateParse60 0 "x" - 60| ≤ 1 ∧
     parse_retry_after dateParse60 0 "y" = 0 ∧
     parse_retry_after dateParse60 0 "" = 0 ∧
     fetchAttempt fetchEnv503 "https://e.com/" 1 =
       .failedTry ("retryable status " ++ toString resp503.status)
         [.retryAfter
            (min (parse_retry_after fetchEnv503.dateParse fetchEnv503.now
              resp503.retry_after) 120),
          .backoff 1]) :=
  ⟨by decide, by decide, rfl, by norm_num, by norm_num, by decide, by decide, rfl, rfl,
   by decide, by decide,
   C7_retry_after_parsing_and_backoff dateParse60 0 "x" "y" 60 fetchEnv503
     "https://e.com/" 1 resp503 (by decide) (by decide) rfl (by norm_num) (by norm_num)
     (by decide) (by decide) rfl rfl (by decide) (by decide)⟩

/-! ## Fetch-and-process worker task -/

theorem dictGet_dictSet (m : List (String × ℚ)) (k : String) (v : ℚ) :
    dictGet (dictSet m k v) k = some v := by
  simp only [dictGet, dictSet, List.find?_append]
  have h1 : (m.filter (fun e => !(e.1 == k))).find? (fun e => e.1 == k) = none := by
    rw [List.find?_eq_none]
    intro x hx
    simpa using (List.mem_filter.1 hx).2
  simp [h1, List.find?]

theorem processLink_preserves (cfg : CrawlCfg) (url : String) (depth : Int)
    (st : CrawlState) (du : String) :
    (processLink cfg url depth st du).seen = st.seen ∧
    (processLink cfg url depth st du).error_count = st.error_count ∧
    (processLink cfg url depth st du).non_html_count = st.non_html_count := by
  simp only [processLink]
  split_ifs <;> simp

theorem processLinks_preserves (cfg : CrawlCfg) (url : String) (depth : Int) :
    ∀ (links : List String) (st : CrawlState),
      (links.foldl (processLink cfg url depth) st).seen = st.seen ∧
      (links.foldl (processLink cfg url depth) st).error_count = st.error_count ∧
      (links.foldl (processLink cfg url depth) st).non_html_count = st.non_html_count := by
  intro links
  induction links with
  | nil => exact fun st => ⟨rfl, rfl, rfl⟩
  | cons a l ih =>
    intro st
    have h1 := processLink_preserves cfg url depth st a
    have h2 := ih (processLink cfg url depth st a)
    simp only [List.foldl_cons]
    exact ⟨h2.1.trans h1.1, h2.2.1.trans h1.2.1, h2.2.2.trans h1.2.2⟩

/-- Claim C6: on a `CAPTCHA_DETECTED` fetch outcome (with the task active: page budget
not reached and not stopping), the worker quarantines the url's host until
`now + captcha_quarantine_sec`, re-pushes the url with priority and depth both equal to
its depth, increments `error_count` by exactly one, appends the audit record, and does
not touch the seen set. -/
theorem C6_captcha_quarantines_and_repushes (cfg : CrawlCfg)
    (extract : String → String → List String) (now : ℚ) (st : CrawlState) (url : String)
    (depth : Int) (parent : Option String) (res : FetchResult) (elapsed : ℚ)
    (hpages : st.pages_ok < cfg.max_pages) (hstop : st.stop_flag = false)
    (herr : res.error = some "CAPTCHA_DETECTED") :
    dictGet (fetchAndProcess cfg extract now st url depth parent res elapsed).quarantine
        (netloc url)
      = some (now + cfg.captcha_quarantine_sec) ∧
    (fetchAndProcess cfg extract now st url depth parent res elapsed).frontier
      = (push_url st.frontier url depth depth parent).2 ∧
    (fetchAndProcess cfg extract now st url depth parent res elapsed).error_count
      = st.error_count + 1 ∧
    (fetchAndProcess cfg extract now st url depth parent res elapsed).records
      = st.records ++ [⟨url, parent, depth, res.status, res.content_type,
          (if res.content = "" then none else some res.content.length), elapsed,
          res.error⟩] ∧
    (fetchAndProcess cfg extract now st url depth parent res elapsed).seen = st.seen := by
  have hguard : ¬(cfg.max_pages ≤ st.pages_ok ∨ st.stop_flag = true) := by
    push_neg
    exact ⟨by omega, by simp [hstop]⟩
  simp [fetchAndProcess, if_neg hguard, herr, dictGet_dictSet]

/-- Witness for C6 at a concrete input. -/
theorem C6_captcha_quarantines_and_repushes_witness :
    (stEmpty.pages_ok < cfgW.max_pages) ∧ (stEmpty.stop_flag = false) ∧
    (resCaptcha.error = some "CAPTCHA_DETECTED") ∧
    (dictGet (fetchAndProcess cfgW (fun _ _ => []) 100 stEmpty
        "https://sub.example.com/p" 2 (some "https://example.com/") resCaptcha
        (3 / 2)).quarantine (netloc "https://sub.example.com/p")
      = some (100 + cfgW.captcha_quarantine_sec) ∧
    (fetchAndProcess cfgW (fun _ _ => []) 100 stEmpty "https://sub.example.com/p" 2
        (some "https://example.com/") resCaptcha (3 / 2)).frontier
      = (push_url stEmpty.frontier "https://sub.example.com/p" 2 2
          (some "https://example.com/")).2 ∧
    (fetchAndProcess cfgW (fun _ _ => []) 100 stEmpty "https://sub.example.com/p" 2
        (some "https://example.com/") resCaptcha (3 / 2)).error_count
      = stEmpty.error_count + 1 ∧
    (fetchAndProcess cfgW (fun _ _ => []) 100 stEmpty "https://sub.example.com/p" 2
        (some "https://example.com/") resCaptcha (3 / 2)).records
      = stEmpty.records ++ [⟨"https://sub.example.com/p", some "https://example.com/", 2,
          resCaptcha.status, resCaptcha.content_type,
          (if resCaptcha.content = "" then none else some resCaptcha.content.length),
          3 / 2, resCaptcha.error⟩] ∧
    (fetchAndProcess cfgW (fun _ _ => []) 100 stEmpty "https://sub.example.com/p" 2
        (some "https://example.com/") resCaptcha (3 / 2)).seen = stEmpty.seen) :=
  ⟨by decide, rfl, rfl,
   C6_captcha_quarantines_and_repushes cfgW (fun _ _ => []) 100 stEmpty
     "https://sub.example.com/p" 2 (some "https://example.com/") resCaptcha (3 / 2)
     (by decide) rfl rfl⟩

/-- Claim C10 as stated is false on the code: a 2xx response whose Content-Type **is**
HTML but whose body is empty still increments `non_html_count` (the successful-HTML
check also requires non-empty content), so `non_html_count` is not incremented "only for
2xx responses that are not HTML". -/
theorem C10_counterexample_2xx_html_empty_body :
    is_html_content "text/html" = true ∧
    (fetchAndProcess cfgW (fun _ _ => []) 0 stEmpty "https://example.com/a" 0 none
        ⟨some 200, "text/html", "", none⟩ 0).non_html_count
      = stEmpty.non_html_count + 1 := by
  constructor
  · decide
  · decide

/-- Claim C10, amended: for an error-free outcome processed by an active task, the url
is marked seen and `error_count` is unchanged; `non_html_count` is incremented exactly
when the status is 2xx and the response fails the successful-HTML check (non-HTML
Content-Type **or empty content**) — in particular a non-null status outside 2xx
increments neither counter. -/
theorem C10_non2xx_uncounted_amended (cfg : CrawlCfg)
    (extract : String → String → List String) (now : ℚ) (st : CrawlState) (url : String)
    (depth : Int) (parent : Option String) (res : FetchResult) (elapsed : ℚ)
    (hpages : st.pages_ok < cfg.max_pages) (hstop : st.stop_flag = false)
    (herr : res.error = none) :
    (fetchAndProcess cfg extract now st url depth parent res elapsed).seen
      = markSeen st.seen url ∧
    (fetchAndProcess cfg extract now st url depth parent res elapsed).error_count
      = st.error_count ∧
    (fetchAndProcess cfg extract now st url depth parent res elapsed).non_html_count
      = st.non_html_count +
        (if is2xx res.status = true ∧
            ¬(is_html_content res.content_type = true ∧ res.content ≠ "") then 1
         else 0) := by
  have hguard : ¬(cfg.max_pages ≤ st.pages_ok ∨ st.stop_flag = true) := by
    push_neg
    exact ⟨by omega, by simp [hstop]⟩
  by_cases hok :
      (is2xx res.status && is_html_content res.content_type && !(res.content == ""))
        = true
  · have hfold := processLinks_preserves cfg url depth (extract url res.content)
    have hcond : ¬(is2xx res.status = true ∧
        ¬(is_html_content res.content_type = true ∧ res.content ≠ "")) := by
      simp only [Bool.and_eq_true, Bool.not_eq_eq_eq_not, Bool.not_true, beq_iff_eq,
        ← Bool.not_eq_true] at hok
      push_neg
      intro _
      exact ⟨hok.1.2, hok.2⟩
    simp only [fetchAndProcess, if_neg hguard, herr, Option.isSome_none, if_pos hok,
      if_neg hcond]
    split_ifs <;>
      simp_all [processLink, markSeen, apply_ite CrawlState.seen,
        apply_ite CrawlState.error_count, apply_ite CrawlState.non_html_count]
  · have hcond : (is2xx res.status = true ∧
        ¬(is_html_content res.content_type = true ∧ res.content ≠ "")) ↔
        is2xx res.status = true := by
      constructor
      · exact fun h => h.1
      · intro h2
        refine ⟨h2, fun hc => ?_⟩
        apply hok
        simp [h2, hc.1, hc.2]
    simp only [fetchAndProcess, if_neg hguard, herr, Option.isSome_none, if_neg hok]
    by_cases h2 : is2xx res.status = true
    · have himp : is_html_content res.content_type = true → res.content = "" := by
        intro hhtml
        by_contra hne
        apply hok
        simp [h2, hhtml, hne]
      simp only [h2, true_and]
      simp only [not_and, ne_eq, not_not]
      rw [if_pos himp]
      simp
    · simp [h2, hcond]

/-- Witness for the amended C10 at a concrete input (HTTP 404, no error). -/
theorem C10_non2xx_uncounted_amended_witness :
    (stEmpty.pages_ok < cfgW.max_pages) ∧ (stEmpty.stop_flag = false) ∧
    ((⟨some 404, "text/html", "nope", none⟩ : FetchResult).error = none) ∧
    ((fetchAndProcess cfgW (fun _ _ => []) 0 stEmpty "https://example.com/a" 0 none
        ⟨some 404, "text/html", "nope", none⟩ 0).seen
      = markSeen stEmpty.seen "https://example.com/a" ∧
    (fetchAndProcess cfgW (fun _ _ => []) 0 stEmpty "https://example.com/a" 0 none
        ⟨some 404, "text/html", "nope", none⟩ 0).error_count = stEmpty.error_count ∧
    (fetchAndProcess cfgW (fun _ _ => []) 0 stEmpty "https://example.com/a" 0 none
        ⟨some 404, "text/html", "nope", none⟩ 0).non_html_count
      = stEmpty.non_html_count +
        (if is2xx (some 404) = true ∧
            ¬(is_html_content "text/html" = true ∧ ("nope" : String) ≠ "") then 1
         else 0)) :=
  ⟨by decide, rfl, rfl,
   C10_non2xx_uncounted_amended cfgW (fun _ _ => []) 0 stEmpty "https://example.com/a" 0
     none ⟨some 404, "text/html", "nope", none⟩ 0 (by decide) rfl rfl⟩

/-- Witness for C1 at a concrete input. -/
theorem C1_pages_ok_never_exceeds_max_witness :
    (1 ≤ 3) ∧ (1 ≤ 5) ∧ ((⟨2, false⟩ : OkState).pages_ok ≤ 3) ∧
    ((runCompletions 3 ⟨3 - 1, false⟩ 5).1 = ⟨3, true⟩ ∧
     (runCompletions 3 ⟨3 - 1, false⟩ 5).2 = 1 ∧
     (incPagesOk 3 ⟨2, false⟩).1.pages_ok ≤ 3) :=
  ⟨by decide, by decide, by decide,
   C1_pages_ok_never_exceeds_max 3 5 ⟨2, false⟩ (by decide) (by decide) (by decide)⟩

end BamaCrawler
